import Mathlib

/-!
Verification development for the browser-automation scripts in
`jules-scratch/verification/` (repository `davideast/modjules`).

Each Python script is a straight-line sequence of Playwright calls.  We embed
each script as a `List Step` and give the sequence an execution semantics
parameterized by an abstract environment `Env` that decides the outcome of
every fallible call (browser launch, navigation, element actions, bounded
waits).  Execution is strictly sequential: the first failing step aborts the
run, carrying the run state reached so far.
-/

/-- The apostrophe character, kept out of string literals. -/
def apos : String := String.singleton (Char.ofNat 39)

/-- The agent message text waited for by `verify_chat_ui.py` line 16:
`page.get_by_text(...)` with the message that the features.md file was
created. -/
def featuresNeedle : String :=
  "Okay, I" ++ apos ++ "ve created the `features.md` file"

/-- Element selector strategies used by the scripts (placeholder text,
visible text substring, ARIA role with accessible name, tag name, and the
last element bearing a CSS class). -/
inductive Selector
  | tag (name : String)
  | text (substring : String)
  | placeholder (p : String)
  | roleButton (name : String)
  | cssClassLast (c : String)
deriving DecidableEq

/-- One Playwright call made by a script. -/
inductive Step
  | launchBrowser
  | newContext
  | newPage
  | sleep (seconds : Nat)
  | goto (url : String)
  | click (sel : Selector)
  | fill (sel : Selector) (contents : String)
  | expectVisible (sel : Selector) (timeoutMs : Nat)
  | expectContainsText (sel : Selector) (needle : String) (timeoutMs : Nat)
  | expectHasClass (sel : Selector) (cls : String) (timeoutMs : Nat)
  | screenshot (path : String)
  | closeBrowser
deriving DecidableEq

/-- Errors a step can raise. -/
inductive StepError
  | launchFailure
  | navigationError (url : String)
  | actionFailure (sel : Selector)
  | timeoutError (sel : Selector) (timeoutMs : Nat)
deriving DecidableEq

/-- Observable run state threaded through a script run: screenshot files
written (in order), whether the browser was closed, total seconds slept, and
the URLs navigated to (in order). -/
structure RunState where
  screenshots : List String
  browserClosed : Bool
  slept : Nat
  navigated : List String
deriving DecidableEq

/-- The state at script start: nothing written, browser open, no sleeping or
navigation performed. -/
def initState : RunState := ⟨[], false, 0, []⟩

/-- Abstract environment deciding the outcome of each fallible call.
`visibleAt sel` is the earliest time (ms, from the start of the wait) at
which `sel` is visible, `none` if it never becomes visible; similarly for
text containment and class possession. -/
structure Env where
  launchOk : Bool
  gotoOk : String → Bool
  actionOk : Selector → Bool
  visibleAt : Selector → Option Nat
  containsTextAt : Selector → String → Option Nat
  hasClassAt : Selector → String → Option Nat

/-- Whether a step succeeds in environment `env`.  Launch, navigation and
element actions succeed per the environment; a bounded wait succeeds iff its
condition holds within its timeout; the remaining steps always succeed. -/
def stepEnabled (env : Env) : Step → Bool
  | .launchBrowser => env.launchOk
  | .goto url => env.gotoOk url
  | .click sel => env.actionOk sel
  | .fill sel _ => env.actionOk sel
  | .expectVisible sel t =>
      match env.visibleAt sel with
      | some v => decide (v ≤ t)
      | none => false
  | .expectContainsText sel needle t =>
      match env.containsTextAt sel needle with
      | some v => decide (v ≤ t)
      | none => false
  | .expectHasClass sel cls t =>
      match env.hasClassAt sel cls with
      | some v => decide (v ≤ t)
      | none => false
  | _ => true

/-- The error raised by a step when it fails. -/
def stepError : Step → StepError
  | .goto url => .navigationError url
  | .click sel => .actionFailure sel
  | .fill sel _ => .actionFailure sel
  | .expectVisible sel t => .timeoutError sel t
  | .expectContainsText sel _ t => .timeoutError sel t
  | .expectHasClass sel _ t => .timeoutError sel t
  | _ => .launchFailure

/-- The effect of a successful step on the run state. -/
def applyStep (s : RunState) : Step → RunState
  | .sleep n => { s with slept := s.slept + n }
  | .goto url => { s with navigated := s.navigated ++ [url] }
  | .screenshot path => { s with screenshots := s.screenshots ++ [path] }
  | .closeBrowser => { s with browserClosed := true }
  | _ => s

/-- Outcome of a run: success with the final state, or the first raised
error together with the state at the moment it was raised. -/
inductive RunResult
  | success (s : RunState)
  | failure (e : StepError) (s : RunState)
deriving DecidableEq

/-- The run state carried by a result, final or at the point of failure. -/
def RunResult.state : RunResult → RunState
  | .success s => s
  | .failure _ s => s

/-- Sequential execution of a script: the first failing step aborts the run
with the state reached before it; later steps do not execute. -/
def execScript (env : Env) : List Step → RunState → RunResult
  | [], s => .success s
  | st :: rest, s =>
      if stepEnabled env st then execScript env rest (applyStep s st)
      else .failure (stepError st) s

/-- Run a script from the initial state. -/
def runScript (env : Env) (script : List Step) : RunResult :=
  execScript env script initState

/-! ## The three scripts under `src/jules-scratch/verification/`, line by line -/

/-- `verify_chat.py`, function `run`: launch, new context, new page, a fixed
5-second sleep, navigate to `http://localhost:3001`, click and fill the
input with placeholder `Ask me anything...`, click the button named `send`,
screenshot, close. -/
def verify_chat : List Step :=
  [ .launchBrowser,
    .newContext,
    .newPage,
    .sleep 5,
    .goto "http://localhost:3001",
    .click (.placeholder "Ask me anything..."),
    .fill (.placeholder "Ask me anything...") "Hello, world!",
    .click (.roleButton "send"),
    .screenshot "jules-scratch/verification/verification.png",
    .closeBrowser ]

/-- `verify_chat_ui.py`, function `run_verification`: launch, new page,
navigate to `http://localhost:3000`, wait (10 s) for `main` to be visible,
wait (10 s) for the features.md confirmation text to be visible, screenshot,
close. -/
def verify_chat_ui : List Step :=
  [ .launchBrowser,
    .newPage,
    .goto "http://localhost:3000",
    .expectVisible (.tag "main") 10000,
    .expectVisible (.text featuresNeedle) 10000,
    .screenshot "jules-scratch/verification/verification.png",
    .closeBrowser ]

/-- `verify_supervisor_chat.py`, `main` composed with `run`: launch, new
page, navigate to `http://localhost:3000`, fill the supervisor prompt, click
the button named `Send`, wait (30 s) for the last `.bg-gray-200` element to
contain `julets`, screenshot, close. -/
def verify_supervisor_chat : List Step :=
  [ .launchBrowser,
    .newPage,
    .goto "http://localhost:3000",
    .fill (.placeholder "Ask the supervisor to do something...")
      "Hello, supervisor! Please tell me about the julets library.",
    .click (.roleButton "Send"),
    .expectContainsText (.cssClassLast "bg-gray-200") "julets" 30000,
    .screenshot "jules-scratch/verification/supervisor_chat.png",
    .closeBrowser ]

/-- Modelled from the spec: the static layout/theme variant of the chat-ui
verification script described in section 9 (duplicate script names with
differing bodies) and Scenario 2, which is not present under `src/`.  Per
the spec it runs against the root page and asserts a visible `main`
element, a visible `footer` element, a present input with placeholder
`Suggest new branches or refine steps...`, and the class token
`dark:bg-background-dark` on the page body, then captures its screenshot.
The 5000 ms bound is the automation library default timeout. -/
def verify_chat_ui_static : List Step :=
  [ .launchBrowser,
    .newPage,
    .goto "http://localhost:3000",
    .expectVisible (.tag "main") 5000,
    .expectVisible (.tag "footer") 5000,
    .expectVisible (.placeholder "Suggest new branches or refine steps...") 5000,
    .expectHasClass (.tag "body") "dark:bg-background-dark" 5000,
    .screenshot "jules-scratch/verification/chat-ui.png",
    .closeBrowser ]

/-! ## Syntactic extraction helpers -/

/-- The URLs a script navigates to, in script order. -/
def gotoUrls : List Step → List String
  | [] => []
  | .goto u :: rest => u :: gotoUrls rest
  | _ :: rest => gotoUrls rest

/-- The screenshot paths a script writes, in script order. -/
def screenshotPaths : List Step → List String
  | [] => []
  | .screenshot p :: rest => p :: screenshotPaths rest
  | _ :: rest => screenshotPaths rest

/-! ## Concrete environments used as witnesses -/

/-- Environment in which every call succeeds and every condition holds
immediately. -/
def allOkEnv : Env :=
  ⟨true, fun _ => true, fun _ => true, fun _ => some 0,
   fun _ _ => some 0, fun _ _ => some 0⟩

/-- Environment in which the browser launches but the target server is
unreachable: every navigation, action and wait fails. -/
def unreachableEnv : Env :=
  ⟨true, fun _ => false, fun _ => false, fun _ => none,
   fun _ _ => none, fun _ _ => none⟩

/-- Environment in which navigation and actions succeed but no waited-for
condition ever holds, so every bounded wait times out. -/
def timeoutEnv : Env :=
  ⟨true, fun _ => true, fun _ => true, fun _ => none,
   fun _ _ => none, fun _ _ => none⟩

/-! ## Interpreter equations (definitional, stated for rewriting) -/

theorem stepEnabled_launch (env : Env) : stepEnabled env .launchBrowser = env.launchOk := rfl

theorem stepEnabled_newContext (env : Env) : stepEnabled env .newContext = true := rfl

theorem stepEnabled_newPage (env : Env) : stepEnabled env .newPage = true := rfl

theorem stepEnabled_sleep (env : Env) (n : Nat) : stepEnabled env (.sleep n) = true := rfl

theorem stepEnabled_goto (env : Env) (u : String) : stepEnabled env (.goto u) = env.gotoOk u := rfl

theorem stepEnabled_click (env : Env) (sel : Selector) :
    stepEnabled env (.click sel) = env.actionOk sel := rfl

theorem stepEnabled_fill (env : Env) (sel : Selector) (c : String) :
    stepEnabled env (.fill sel c) = env.actionOk sel := rfl

theorem stepEnabled_screenshot (env : Env) (p : String) :
    stepEnabled env (.screenshot p) = true := rfl

theorem stepEnabled_close (env : Env) : stepEnabled env .closeBrowser = true := rfl

theorem stepEnabled_expectVisible (env : Env) (sel : Selector) (t : Nat) :
    stepEnabled env (.expectVisible sel t) =
      match env.visibleAt sel with
      | some v => decide (v ≤ t)
      | none => false := rfl

theorem stepEnabled_expectContainsText (env : Env) (sel : Selector) (needle : String) (t : Nat) :
    stepEnabled env (.expectContainsText sel needle t) =
      match env.containsTextAt sel needle with
      | some v => decide (v ≤ t)
      | none => false := rfl

theorem stepEnabled_expectHasClass (env : Env) (sel : Selector) (cls : String) (t : Nat) :
    stepEnabled env (.expectHasClass sel cls t) =
      match env.hasClassAt sel cls with
      | some v => decide (v ≤ t)
      | none => false := rfl

/-- A visibility wait succeeds exactly when the element becomes visible
within the timeout. -/
theorem enabled_expectVisible_iff (env : Env) (sel : Selector) (t : Nat) :
    stepEnabled env (.expectVisible sel t) = true ↔
      ∃ v, env.visibleAt sel = some v ∧ v ≤ t := by
  rw [stepEnabled_expectVisible]
  cases h : env.visibleAt sel <;> simp [h]

/-- A text-containment wait succeeds exactly when the containment holds
within the timeout. -/
theorem enabled_expectContainsText_iff (env : Env) (sel : Selector) (needle : String) (t : Nat) :
    stepEnabled env (.expectContainsText sel needle t) = true ↔
      ∃ v, env.containsTextAt sel needle = some v ∧ v ≤ t := by
  rw [stepEnabled_expectContainsText]
  cases h : env.containsTextAt sel needle <;> simp [h]

/-- A class-possession wait succeeds exactly when the class is carried
within the timeout. -/
theorem enabled_expectHasClass_iff (env : Env) (sel : Selector) (cls : String) (t : Nat) :
    stepEnabled env (.expectHasClass sel cls t) = true ↔
      ∃ v, env.hasClassAt sel cls = some v ∧ v ≤ t := by
  rw [stepEnabled_expectHasClass]
  cases h : env.hasClassAt sel cls <;> simp [h]

theorem execScript_nil (env : Env) (s : RunState) : execScript env [] s = .success s := rfl

theorem execScript_cons (env : Env) (st : Step) (rest : List Step) (s : RunState) :
    execScript env (st :: rest) s =
      if stepEnabled env st then execScript env rest (applyStep s st)
      else .failure (stepError st) s := rfl

/-- A run succeeds exactly when every step of the script is enabled, in
which case the final state is the fold of the step effects. -/
theorem execScript_success_iff (env : Env) (l : List Step) (s s' : RunState) :
    execScript env l s = .success s' ↔
      ((∀ st ∈ l, stepEnabled env st = true) ∧ s' = List.foldl applyStep s l) := by
  induction l generalizing s with
  | nil =>
      rw [execScript_nil]
      constructor
      · intro h
        injection h with h
        exact ⟨fun st hst => absurd hst (List.not_mem_nil st), h.symm⟩
      · rintro ⟨-, h⟩
        rw [h]
        rfl
  | cons st rest ih =>
      by_cases h : stepEnabled env st = true
      · rw [execScript_cons, if_pos h, ih]
        simp only [List.forall_mem_cons, List.foldl_cons, h, eq_self_iff_true, true_and]
      · rw [execScript_cons, if_neg h]
        constructor
        · intro hc
          exact RunResult.noConfusion hc
        · rintro ⟨hall, -⟩
          exact absurd (hall st (List.mem_cons_self st rest)) h

/-- Executing an enabled step continues with the step applied. -/
theorem exec_cons_true (env : Env) (st : Step) (rest : List Step) (s : RunState)
    (h : stepEnabled env st = true) :
    execScript env (st :: rest) s = execScript env rest (applyStep s st) := by
  rw [execScript_cons, if_pos h]

/-- Executing a disabled step raises its error with the current state. -/
theorem exec_cons_false (env : Env) (st : Step) (rest : List Step) (s : RunState)
    (h : ¬ stepEnabled env st = true) :
    execScript env (st :: rest) s = .failure (stepError st) s := by
  rw [execScript_cons, if_neg h]

theorem exec_newContext (env : Env) (rest : List Step) (s : RunState) :
    execScript env (Step.newContext :: rest) s = execScript env rest s := rfl

theorem exec_newPage (env : Env) (rest : List Step) (s : RunState) :
    execScript env (Step.newPage :: rest) s = execScript env rest s := rfl

theorem exec_sleep (env : Env) (rest : List Step) (s : RunState) (n : Nat) :
    execScript env (Step.sleep n :: rest) s =
      execScript env rest { s with slept := s.slept + n } := rfl

theorem exec_screenshot (env : Env) (rest : List Step) (s : RunState) (p : String) :
    execScript env (Step.screenshot p :: rest) s =
      execScript env rest { s with screenshots := s.screenshots ++ [p] } := rfl

theorem exec_close (env : Env) (rest : List Step) (s : RunState) :
    execScript env (Step.closeBrowser :: rest) s =
      execScript env rest { s with browserClosed := true } := rfl

/-- A failing run of the basic chat script never reaches the screenshot and
close steps: the browser stays open, no screenshot is written, and whenever
the launch succeeded, the 5-second sleep had already been executed. -/
theorem verify_chat_failure_cases (env : Env) (e : StepError) (s : RunState)
    (h : runScript env verify_chat = .failure e s) :
    s.browserClosed = false ∧ s.screenshots = [] ∧
      (stepEnabled env Step.launchBrowser = true → s.slept = 5) := by
  rw [runScript, verify_chat] at h
  by_cases h1 : stepEnabled env Step.launchBrowser = true
  · rw [exec_cons_true _ _ _ _ h1] at h
    simp only [exec_newContext, exec_newPage, exec_sleep] at h
    by_cases h2 : stepEnabled env (Step.goto "http://localhost:3001") = true
    · rw [exec_cons_true _ _ _ _ h2] at h
      by_cases h3 :
          stepEnabled env (Step.click (Selector.placeholder "Ask me anything...")) = true
      · rw [exec_cons_true _ _ _ _ h3] at h
        by_cases h4 : stepEnabled env
            (Step.fill (Selector.placeholder "Ask me anything...") "Hello, world!") = true
        · rw [exec_cons_true _ _ _ _ h4] at h
          by_cases h5 : stepEnabled env (Step.click (Selector.roleButton "send")) = true
          · rw [exec_cons_true _ _ _ _ h5] at h
            simp only [exec_screenshot, exec_close, execScript_nil] at h
            exact RunResult.noConfusion h
          · rw [exec_cons_false _ _ _ _ h5] at h
            injection h with hE hS
            subst hS
            exact ⟨rfl, rfl, fun _ => rfl⟩
        · rw [exec_cons_false _ _ _ _ h4] at h
          injection h with hE hS
          subst hS
          exact ⟨rfl, rfl, fun _ => rfl⟩
      · rw [exec_cons_false _ _ _ _ h3] at h
        injection h with hE hS
        subst hS
        exact ⟨rfl, rfl, fun _ => rfl⟩
    · rw [exec_cons_false _ _ _ _ h2] at h
      injection h with hE hS
      subst hS
      exact ⟨rfl, rfl, fun _ => rfl⟩
  · rw [exec_cons_false _ _ _ _ h1] at h
    injection h with hE hS
    subst hS
    exact ⟨rfl, rfl, fun hL => absurd hL h1⟩

/-- A failing run of the chat-ui script never reaches the screenshot and
close steps: the browser stays open and no screenshot is written. -/
theorem verify_chat_ui_failure_cases (env : Env) (e : StepError) (s : RunState)
    (h : runScript env verify_chat_ui = .failure e s) :
    s.browserClosed = false ∧ s.screenshots = [] := by
  rw [runScript, verify_chat_ui] at h
  by_cases h1 : stepEnabled env Step.launchBrowser = true
  · rw [exec_cons_true _ _ _ _ h1] at h
    simp only [exec_newPage] at h
    by_cases h2 : stepEnabled env (Step.goto "http://localhost:3000") = true
    · rw [exec_cons_true _ _ _ _ h2] at h
      by_cases h3 : stepEnabled env (Step.expectVisible (.tag "main") 10000) = true
      · rw [exec_cons_true _ _ _ _ h3] at h
        by_cases h4 :
            stepEnabled env (Step.expectVisible (.text featuresNeedle) 10000) = true
        · rw [exec_cons_true _ _ _ _ h4] at h
          simp only [exec_screenshot, exec_close, execScript_nil] at h
          exact RunResult.noConfusion h
        · rw [exec_cons_false _ _ _ _ h4] at h
          injection h with hE hS
          subst hS
          exact ⟨rfl, rfl⟩
      · rw [exec_cons_false _ _ _ _ h3] at h
        injection h with hE hS
        subst hS
        exact ⟨rfl, rfl⟩
    · rw [exec_cons_false _ _ _ _ h2] at h
      injection h with hE hS
      subst hS
      exact ⟨rfl, rfl⟩
  · rw [exec_cons_false _ _ _ _ h1] at h
    injection h with hE hS
    subst hS
    exact ⟨rfl, rfl⟩

/-- A failing run of the supervisor-chat script never reaches the screenshot
and close steps; moreover, when launch, navigation and both element actions
succeed, the only possible failure is the 30-second containment wait timing
out. -/
theorem verify_supervisor_failure_cases (env : Env) (e : StepError) (s : RunState)
    (h : runScript env verify_supervisor_chat = .failure e s) :
    s.browserClosed = false ∧ s.screenshots = [] ∧
      (stepEnabled env Step.launchBrowser = true →
        stepEnabled env (Step.goto "http://localhost:3000") = true →
        stepEnabled env (Step.fill (Selector.placeholder "Ask the supervisor to do something...")
          "Hello, supervisor! Please tell me about the julets library.") = true →
        stepEnabled env (Step.click (Selector.roleButton "Send")) = true →
        e = .timeoutError (.cssClassLast "bg-gray-200") 30000) := by
  rw [runScript, verify_supervisor_chat] at h
  by_cases h1 : stepEnabled env Step.launchBrowser = true
  · rw [exec_cons_true _ _ _ _ h1] at h
    simp only [exec_newPage] at h
    by_cases h2 : stepEnabled env (Step.goto "http://localhost:3000") = true
    · rw [exec_cons_true _ _ _ _ h2] at h
      by_cases h3 : stepEnabled env
          (Step.fill (Selector.placeholder "Ask the supervisor to do something...")
            "Hello, supervisor! Please tell me about the julets library.") = true
      · rw [exec_cons_true _ _ _ _ h3] at h
        by_cases h4 : stepEnabled env (Step.click (Selector.roleButton "Send")) = true
        · rw [exec_cons_true _ _ _ _ h4] at h
          by_cases h5 : stepEnabled env
              (Step.expectContainsText (.cssClassLast "bg-gray-200") "julets" 30000) = true
          · rw [exec_cons_true _ _ _ _ h5] at h
            simp only [exec_screenshot, exec_close, execScript_nil] at h
            exact RunResult.noConfusion h
          · rw [exec_cons_false _ _ _ _ h5] at h
            injection h with hE hS
            subst hS
            exact ⟨rfl, rfl, fun _ _ _ _ => hE.symm⟩
        · rw [exec_cons_false _ _ _ _ h4] at h
          injection h with hE hS
          subst hS
          exact ⟨rfl, rfl, fun _ _ _ hC => absurd hC h4⟩
      · rw [exec_cons_false _ _ _ _ h3] at h
        injection h with hE hS
        subst hS
        exact ⟨rfl, rfl, fun _ _ hF _ => absurd hF h3⟩
    · rw [exec_cons_false _ _ _ _ h2] at h
      injection h with hE hS
      subst hS
      exact ⟨rfl, rfl, fun _ hG _ _ => absurd hG h2⟩
  · rw [exec_cons_false _ _ _ _ h1] at h
    injection h with hE hS
    subst hS
    exact ⟨rfl, rfl, fun hL _ _ _ => absurd hL h1⟩

/-! ## Claims -/

/-- C1: in every script the browser close call is the final statement of the
straight-line body, so it executes only on the successful fall-through path:
on every run in which an earlier step raises, the close step does not
execute and the browser is not released; on every successful run it is. -/
theorem close_only_on_success (env : Env) :
    ((∀ e s, runScript env verify_chat = .failure e s → s.browserClosed = false) ∧
      (∀ s, runScript env verify_chat = .success s → s.browserClosed = true)) ∧
    ((∀ e s, runScript env verify_chat_ui = .failure e s → s.browserClosed = false) ∧
      (∀ s, runScript env verify_chat_ui = .success s → s.browserClosed = true)) ∧
    ((∀ e s, runScript env verify_supervisor_chat = .failure e s → s.browserClosed = false) ∧
      (∀ s, runScript env verify_supervisor_chat = .success s → s.browserClosed = true)) := by
  refine ⟨⟨?_, ?_⟩, ⟨?_, ?_⟩, ⟨?_, ?_⟩⟩
  · intro e s h
    exact (verify_chat_failure_cases env e s h).1
  · intro s h
    rw [runScript, execScript_success_iff] at h
    rcases h with ⟨-, rfl⟩
    rfl
  · intro e s h
    exact (verify_chat_ui_failure_cases env e s h).1
  · intro s h
    rw [runScript, execScript_success_iff] at h
    rcases h with ⟨-, rfl⟩
    rfl
  · intro e s h
    exact (verify_supervisor_failure_cases env e s h).1
  · intro s h
    rw [runScript, execScript_success_iff] at h
    rcases h with ⟨-, rfl⟩
    rfl

/-- C1 witness: with the browser launched but the target server unreachable,
the basic chat script fails at navigation and its failure state has the
browser still open. -/
theorem close_only_on_success_witness :
    (⟨[], false, 5, []⟩ : RunState).browserClosed = false :=
  (close_only_on_success unreachableEnv).1.1
    (.navigationError "http://localhost:3001") ⟨[], false, 5, []⟩ rfl

/-- C2: the static layout/theme chat-ui script (modelled from the spec, see
`verify_chat_ui_static`) asserts all four Scenario 2 conditions
simultaneously: any successful run certifies that a `main` element and a
`footer` element are visible, that an input with the branch-suggestion
placeholder is present, and that the page body carries the class token
`dark:bg-background-dark`, each within the wait bound. -/
theorem static_chat_ui_asserts_four (env : Env) (s : RunState)
    (h : runScript env verify_chat_ui_static = .success s) :
    (∃ v, env.visibleAt (.tag "main") = some v ∧ v ≤ 5000) ∧
    (∃ v, env.visibleAt (.tag "footer") = some v ∧ v ≤ 5000) ∧
    (∃ v, env.visibleAt (.placeholder "Suggest new branches or refine steps...")
      = some v ∧ v ≤ 5000) ∧
    (∃ v, env.hasClassAt (.tag "body") "dark:bg-background-dark" = some v ∧ v ≤ 5000) := by
  rw [runScript, execScript_success_iff] at h
  obtain ⟨hall, -⟩ := h
  refine ⟨(enabled_expectVisible_iff env _ _).mp (hall _ ?_),
          (enabled_expectVisible_iff env _ _).mp (hall _ ?_),
          (enabled_expectVisible_iff env _ _).mp (hall _ ?_),
          (enabled_expectHasClass_iff env _ _ _).mp (hall _ ?_)⟩ <;>
    decide

/-- C2 witness: in the environment where every condition holds immediately,
the static chat-ui script succeeds and the four conditions are certified. -/
theorem static_chat_ui_asserts_four_witness :
    (∃ v, allOkEnv.visibleAt (.tag "main") = some v ∧ v ≤ 5000) ∧
    (∃ v, allOkEnv.visibleAt (.tag "footer") = some v ∧ v ≤ 5000) ∧
    (∃ v, allOkEnv.visibleAt (.placeholder "Suggest new branches or refine steps...")
      = some v ∧ v ≤ 5000) ∧
    (∃ v, allOkEnv.hasClassAt (.tag "body") "dark:bg-background-dark" = some v ∧ v ≤ 5000) :=
  static_chat_ui_asserts_four allOkEnv
    ⟨["jules-scratch/verification/chat-ui.png"], true, 0, ["http://localhost:3000"]⟩ rfl

/-- C3 counterexample: the claim that no two scripts write to the same
artifact path is false at the concrete pair `verify_chat`,
`verify_chat_ui`: they are distinct scripts yet both write exactly
`jules-scratch/verification/verification.png`. -/
theorem shared_artifact_path_counterexample :
    verify_chat ≠ verify_chat_ui ∧
    screenshotPaths verify_chat = screenshotPaths verify_chat_ui ∧
    screenshotPaths verify_chat = ["jules-scratch/verification/verification.png"] :=
  ⟨by decide, rfl, rfl⟩

/-- C3 amended: each script writes its PNG screenshot to a fixed relative
path, namely `jules-scratch/verification/verification.png` for both the
basic chat script and the chat-ui script, and
`jules-scratch/verification/supervisor_chat.png` for the supervisor script;
so two of the three scripts share one artifact path, and none writes a
chat-ui.png path. -/
theorem artifact_paths_amended :
    screenshotPaths verify_chat = ["jules-scratch/verification/verification.png"] ∧
    screenshotPaths verify_chat_ui = ["jules-scratch/verification/verification.png"] ∧
    screenshotPaths verify_supervisor_chat = ["jules-scratch/verification/supervisor_chat.png"] :=
  ⟨rfl, rfl, rfl⟩

/-- C4: the agent-message wait of the chat-ui script (its step at index 4)
is a visibility wait bounded by 10000 ms: it succeeds exactly when the
features.md confirmation text becomes visible within 10 seconds, it raises a
timeout error when the text never appears, and in every environment it
terminates in one of exactly these two outcomes. -/
theorem chat_ui_wait_bounded (env : Env) (s : RunState) :
    verify_chat_ui.get? 4 = some (.expectVisible (.text featuresNeedle) 10000) ∧
    (execScript env [.expectVisible (.text featuresNeedle) 10000] s = .success s ↔
      ∃ v, env.visibleAt (.text featuresNeedle) = some v ∧ v ≤ 10000) ∧
    (env.visibleAt (.text featuresNeedle) = none →
      execScript env [.expectVisible (.text featuresNeedle) 10000] s =
        .failure (.timeoutError (.text featuresNeedle) 10000) s) ∧
    (execScript env [.expectVisible (.text featuresNeedle) 10000] s = .success s ∨
      execScript env [.expectVisible (.text featuresNeedle) 10000] s =
        .failure (.timeoutError (.text featuresNeedle) 10000) s) := by
  by_cases hw : stepEnabled env (Step.expectVisible (.text featuresNeedle) 10000) = true
  · refine ⟨rfl, ?_, ?_, ?_⟩
    · rw [exec_cons_true _ _ _ _ hw, execScript_nil]
      exact ⟨fun _ => (enabled_expectVisible_iff env _ _).mp hw, fun _ => rfl⟩
    · intro hnone
      rw [enabled_expectVisible_iff] at hw
      obtain ⟨v, hv, -⟩ := hw
      rw [hnone] at hv
      exact Option.noConfusion hv
    · left
      rw [exec_cons_true _ _ _ _ hw, execScript_nil]
      rfl
  · refine ⟨rfl, ?_, ?_, ?_⟩
    · rw [exec_cons_false _ _ _ _ hw]
      constructor
      · intro hc
        exact RunResult.noConfusion hc
      · intro hex
        exact absurd ((enabled_expectVisible_iff env _ _).mpr hex) hw
    · intro _
      rw [exec_cons_false _ _ _ _ hw]
      rfl
    · right
      rw [exec_cons_false _ _ _ _ hw]
      rfl

/-- C4 witness: in the environment where the text never appears, the wait
step raises the 10-second timeout error from the initial state. -/
theorem chat_ui_wait_bounded_witness :
    execScript timeoutEnv [.expectVisible (.text featuresNeedle) 10000] initState =
      .failure (.timeoutError (.text featuresNeedle) 10000) initState :=
  (chat_ui_wait_bounded timeoutEnv initState).2.2.1 rfl

/-- C5: against a correctly responding target (launch, navigation, the
supervisor-prompt fill and the Send click all succeed), a run of the
supervisor-chat script succeeds exactly when the last `bg-gray-200` element
comes to contain `julets` within 30000 ms, and the only possible failure is
that wait timing out. -/
theorem supervisor_wait_iff (env : Env)
    (h1 : env.launchOk = true)
    (h2 : env.gotoOk "http://localhost:3000" = true)
    (h3 : env.actionOk (.placeholder "Ask the supervisor to do something...") = true)
    (h4 : env.actionOk (.roleButton "Send") = true) :
    ((∃ s, runScript env verify_supervisor_chat = .success s) ↔
      ∃ v, env.containsTextAt (.cssClassLast "bg-gray-200") "julets" = some v ∧ v ≤ 30000) ∧
    (∀ e s, runScript env verify_supervisor_chat = .failure e s →
      e = .timeoutError (.cssClassLast "bg-gray-200") 30000) := by
  constructor
  · constructor
    · rintro ⟨s, hs⟩
      rw [runScript, execScript_success_iff] at hs
      exact (enabled_expectContainsText_iff env _ _ _).mp (hs.1 _ (by decide))
    · intro hex
      refine ⟨List.foldl applyStep initState verify_supervisor_chat, ?_⟩
      rw [runScript, execScript_success_iff]
      refine ⟨?_, rfl⟩
      intro st hst
      simp only [verify_supervisor_chat, List.mem_cons, List.mem_nil_iff, or_false] at hst
      rcases hst with rfl | rfl | rfl | rfl | rfl | rfl | rfl | rfl
      · exact h1
      · rfl
      · exact h2
      · exact h3
      · exact h4
      · exact (enabled_expectContainsText_iff env _ _ _).mpr hex
      · rfl
      · rfl
  · intro e s h
    exact (verify_supervisor_failure_cases env e s h).2.2 h1 h2 h3 h4

/-- C5 witness: in the environment where every condition holds immediately,
the supervisor-chat script run succeeds. -/
theorem supervisor_wait_iff_witness :
    ∃ s, runScript allOkEnv verify_supervisor_chat = .success s :=
  (supervisor_wait_iff allOkEnv rfl rfl rfl rfl).1.mpr ⟨0, rfl, Nat.zero_le _⟩

/-- C6: against a page where the launch, the navigation to port 3001, the
interactions with the input with placeholder text for asking anything and
with the button named `send` all succeed, the basic chat script completes
without raising and produces exactly one screenshot, at its fixed path. -/
theorem basic_chat_success (env : Env)
    (h1 : env.launchOk = true)
    (h2 : env.gotoOk "http://localhost:3001" = true)
    (h3 : env.actionOk (.placeholder "Ask me anything...") = true)
    (h4 : env.actionOk (.roleButton "send") = true) :
    runScript env verify_chat =
      .success ⟨["jules-scratch/verification/verification.png"], true, 5,
        ["http://localhost:3001"]⟩ := by
  rw [runScript, execScript_success_iff]
  refine ⟨?_, rfl⟩
  intro st hst
  simp only [verify_chat, List.mem_cons, List.mem_nil_iff, or_false] at hst
  rcases hst with rfl | rfl | rfl | rfl | rfl | rfl | rfl | rfl | rfl | rfl
  · exact h1
  · rfl
  · rfl
  · rfl
  · exact h2
  · exact h3
  · exact h3
  · exact h4
  · rfl
  · rfl

/-- C6 witness: in the environment where every call succeeds, the basic chat
script run reaches exactly this success state. -/
theorem basic_chat_success_witness :
    runScript allOkEnv verify_chat =
      .success ⟨["jules-scratch/verification/verification.png"], true, 5,
        ["http://localhost:3001"]⟩ :=
  basic_chat_success allOkEnv rfl rfl rfl rfl

/-- C7: in the two scripts that assert before capturing (chat-ui and
supervisor-chat), every failing run - in particular every assertion or wait
timeout - aborts before the capture step, so the failure state contains no
written screenshot. -/
theorem no_screenshot_on_failure (env : Env) :
    (∀ e s, runScript env verify_chat_ui = .failure e s → s.screenshots = []) ∧
    (∀ e s, runScript env verify_supervisor_chat = .failure e s → s.screenshots = []) := by
  constructor
  · intro e s h
    exact (verify_chat_ui_failure_cases env e s h).2
  · intro e s h
    exact (verify_supervisor_failure_cases env e s h).2.1

/-- C7 witness: when the `main` visibility wait times out, the chat-ui run
fails with a state in which no screenshot was written. -/
theorem no_screenshot_on_failure_witness :
    (⟨[], false, 0, ["http://localhost:3000"]⟩ : RunState).screenshots = [] :=
  (no_screenshot_on_failure timeoutEnv).1 (.timeoutError (.tag "main") 10000)
    ⟨[], false, 0, ["http://localhost:3000"]⟩ rfl

/-- C8: each script navigates to exactly one hard-coded URL - port 3001 for
the basic chat script, port 3000 for the chat-ui and supervisor scripts -
and since the scripts are fixed step lists taking no input, every successful
run of a given script records exactly that same URL, whatever the
environment. -/
theorem hard_coded_urls :
    gotoUrls verify_chat = ["http://localhost:3001"] ∧
    gotoUrls verify_chat_ui = ["http://localhost:3000"] ∧
    gotoUrls verify_supervisor_chat = ["http://localhost:3000"] ∧
    (∀ env s, runScript env verify_chat = .success s →
      s.navigated = ["http://localhost:3001"]) ∧
    (∀ env s, runScript env verify_chat_ui = .success s →
      s.navigated = ["http://localhost:3000"]) ∧
    (∀ env s, runScript env verify_supervisor_chat = .success s →
      s.navigated = ["http://localhost:3000"]) := by
  refine ⟨rfl, rfl, rfl, ?_, ?_, ?_⟩ <;>
  · intro env s h
    rw [runScript, execScript_success_iff] at h
    rcases h with ⟨-, rfl⟩
    rfl

/-- C8 witness: a successful run of the basic chat script navigated exactly
to the port-3001 URL. -/
theorem hard_coded_urls_witness :
    (⟨["jules-scratch/verification/verification.png"], true, 5,
      ["http://localhost:3001"]⟩ : RunState).navigated = ["http://localhost:3001"] :=
  hard_coded_urls.2.2.2.1 allOkEnv
    ⟨["jules-scratch/verification/verification.png"], true, 5,
      ["http://localhost:3001"]⟩ rfl

/-- C10: the basic chat script contains the unconditional 5-second sleep
between page creation and navigation (its first five steps are launch, new
context, new page, sleep 5, goto), and on every run whose launch succeeds -
reachable target or not - the run state carries the full 5 seconds of
sleeping. -/
theorem fixed_sleep_before_goto (env : Env) (h : env.launchOk = true) :
    verify_chat.take 5 = [Step.launchBrowser, Step.newContext, Step.newPage,
      Step.sleep 5, Step.goto "http://localhost:3001"] ∧
    (runScript env verify_chat).state.slept = 5 := by
  refine ⟨rfl, ?_⟩
  cases hr : runScript env verify_chat with
  | success s =>
      rw [runScript, execScript_success_iff] at hr
      rcases hr with ⟨-, rfl⟩
      rfl
  | failure e s =>
      exact (verify_chat_failure_cases env e s hr).2.2 h

/-- C10 witness: with the target server unreachable, the basic chat run
still slept the full 5 seconds before failing at navigation. -/
theorem fixed_sleep_before_goto_witness :
    verify_chat.take 5 = [Step.launchBrowser, Step.newContext, Step.newPage,
      Step.sleep 5, Step.goto "http://localhost:3001"] ∧
    (runScript unreachableEnv verify_chat).state.slept = 5 :=
  fixed_sleep_before_goto unreachableEnv rfl
